import Mathlib

/- Formal model of the FashionMate recommendation pipeline: the Gemini
recommendation client (src/geminiService.ts), the form validation and
submission logic (src/App.tsx), and the saved-outfit local-storage store
(the OutfitDisplay component).  JavaScript strings are modelled as Lean
strings; String.prototype.trim is embedded explicitly as a structural
function over the character list so that it evaluates inside the kernel. -/

/-! ## JavaScript string primitives -/

/-- Character class of the regular expression `[a-zA-Z]`. -/
def isAsciiLetter (c : Char) : Bool :=
  ( 'a' ≤ c && c ≤ 'z') || ( 'A' ≤ c && c ≤ 'Z')

/-- Character class of the regular expression `[a-zA-Z0-9]`. -/
def isAsciiAlphanumeric (c : Char) : Bool :=
  isAsciiLetter c || ( '0' ≤ c && c ≤ '9')

/-- Drop whitespace from both ends of a character list. -/
def trimChars (cs : List Char) : List Char :=
  ((cs.dropWhile Char.isWhitespace).reverse.dropWhile Char.isWhitespace).reverse

/-- Model of JavaScript `value.trim()`. -/
def trimString (s : String) : String :=
  String.mk (trimChars s.data)

/-- Model of `/[a-zA-Z]/.test(s)`. -/
def hasAsciiLetter (s : String) : Bool :=
  s.data.any isAsciiLetter

/-- Model of `/[a-zA-Z0-9]/.test(s)`. -/
def hasAsciiAlphanumeric (s : String) : Bool :=
  s.data.any isAsciiAlphanumeric

/-! ## JSON values

`JSON.parse` produces an arbitrary JavaScript value; the client code in
src/geminiService.ts casts it to `StylistResponse` without any runtime
check, so the model keeps the raw JSON value. -/

/-- A JSON document, the possible results of a successful `JSON.parse`. -/
inductive Json where
  | null : Json
  | bool (b : Bool) : Json
  | num (n : Int) : Json
  | str (s : String) : Json
  | arr (items : List Json) : Json
  | obj (fields : List (String × Json)) : Json
deriving Repr

/-- Field lookup in a JSON object, as JavaScript property access. -/
def findField (fields : List (String × Json)) (key : String) : Option Json :=
  (fields.find? (fun p => p.1 == key)).map (fun p => p.2)

/-- The value is a JSON string. -/
def isJsonString : Json → Bool
  | .str _ => true
  | _ => false

/-- The value is a JSON array of strings. -/
def isJsonStringArray : Json → Bool
  | .arr items => items.all isJsonString
  | _ => false

/-- The object has the given field and it is a string. -/
def hasStringField (fields : List (String × Json)) (key : String) : Bool :=
  match findField fields key with
  | some j => isJsonString j
  | none => false

/-! ## The data model of types.ts -/

/-- The `PrimaryOutfit` interface of types.ts. -/
structure PrimaryOutfit where
  title : String
  top : String
  bottom : String
  footwear : String
  accessories : List String
  reasoning : String
deriving Repr, DecidableEq

/-- The `AdditionalSuggestion` interface of types.ts. -/
structure AdditionalSuggestion where
  label : String
  outfit_summary : String
deriving Repr, DecidableEq

/-- The `StylistResponse` interface of types.ts. -/
structure StylistResponse where
  primary_outfit : PrimaryOutfit
  additional_suggestions : List AdditionalSuggestion
  styling_notes : String
deriving Repr, DecidableEq

/-- A JSON value satisfies the `PrimaryOutfit` shape (the six required
fields of the response schema of src/geminiService.ts). -/
def isPrimaryOutfitShape : Json → Bool
  | .obj fs =>
      hasStringField fs "title" && hasStringField fs "top" &&
      hasStringField fs "bottom" && hasStringField fs "footwear" &&
      (match findField fs "accessories" with
        | some j => isJsonStringArray j
        | none => false) &&
      hasStringField fs "reasoning"
  | _ => false

/-- A JSON value satisfies the `AdditionalSuggestion` shape. -/
def isSuggestionShape : Json → Bool
  | .obj fs => hasStringField fs "label" && hasStringField fs "outfit_summary"
  | _ => false

/-- A JSON value satisfies the `StylistResponse` shape (the three required
top-level fields of the response schema; the schema puts no length
constraint on the suggestion array). -/
def isStylistResponseShape : Json → Bool
  | .obj fs =>
      (match findField fs "primary_outfit" with
        | some j => isPrimaryOutfitShape j
        | none => false) &&
      (match findField fs "additional_suggestions" with
        | some (.arr items) => items.all isSuggestionShape
        | _ => false) &&
      hasStringField fs "styling_notes"
  | _ => false

/-- JSON encoding of a `PrimaryOutfit` record. -/
def encodePrimaryOutfit (o : PrimaryOutfit) : Json :=
  .obj [("title", .str o.title), ("top", .str o.top),
        ("bottom", .str o.bottom), ("footwear", .str o.footwear),
        ("accessories", .arr (o.accessories.map Json.str)),
        ("reasoning", .str o.reasoning)]

/-- JSON encoding of an `AdditionalSuggestion` record. -/
def encodeSuggestion (a : AdditionalSuggestion) : Json :=
  .obj [("label", .str a.label), ("outfit_summary", .str a.outfit_summary)]

/-- JSON encoding of a `StylistResponse` record. -/
def encodeStylistResponse (r : StylistResponse) : Json :=
  .obj [("primary_outfit", encodePrimaryOutfit r.primary_outfit),
        ("additional_suggestions", .arr (r.additional_suggestions.map encodeSuggestion)),
        ("styling_notes", .str r.styling_notes)]

/-! ## The recommendation client of src/geminiService.ts -/

/-- Outcome of the `ai.models.generateContent` call: either the promise
rejects (transport, status, quota or auth failure, carrying some internal
message), or it resolves and `response.text` is the given optional
string (`none` models an absent/undefined text payload). -/
inductive ServiceResult where
  | failure (msg : String) : ServiceResult
  | success (text : Option String) : ServiceResult

/-- The fixed user-facing message thrown by the catch block of
`getOutfitRecommendation`. -/
def normalizedErrorMessage : String :=
  "Unable to generate outfit recommendations at this time. Please try again."

/-- The message of the error thrown when the text payload is falsy. -/
def emptyResponseMessage : String :=
  "No response received from AI Stylist."

/-- The body of the try block of `getOutfitRecommendation`: propagate a
service failure, throw `emptyResponseMessage` on a falsy text payload
(undefined or the empty string), throw a raw parser error when
`JSON.parse` fails, and otherwise return the parsed JSON unchanged (the
`as StylistResponse` cast performs no runtime check).  The parameter
`parse` models `JSON.parse`, with `none` for a parse exception. -/
def attemptRecommendation (parse : String → Option Json) :
    ServiceResult → Except String Json
  | .failure msg => .error msg
  | .success none => .error emptyResponseMessage
  | .success (some t) =>
      if t = "" then .error emptyResponseMessage
      else
        match parse t with
        | none => .error ("Unexpected token in JSON input: " ++ t)
        | some j => .ok j

/-- `getOutfitRecommendation` of src/geminiService.ts: the try block
above, wrapped in a catch-all that logs the cause and rethrows a single
error with the fixed message `normalizedErrorMessage`. -/
def getOutfitRecommendation (parse : String → Option Json)
    (svc : ServiceResult) : Except String Json :=
  match attemptRecommendation parse svc with
  | .ok j => .ok j
  | .error _ => .error normalizedErrorMessage

/-! ## Claim C1 -/

/-- C1: whenever the recommendation call fails for any reason (transport
or service failure, empty text payload, or a text payload that fails to
parse as JSON), `getOutfitRecommendation` throws an error whose message
is exactly the fixed user-facing sentence, and never surfaces the raw
underlying cause: every error it produces carries exactly
`normalizedErrorMessage`, and each of the failure modes produces such an
error. -/
theorem claim_C1 (parse : String → Option Json) :
    (∀ svc msg, getOutfitRecommendation parse svc = .error msg →
        msg = normalizedErrorMessage) ∧
    (∀ m, getOutfitRecommendation parse (.failure m) =
        .error normalizedErrorMessage) ∧
    (getOutfitRecommendation parse (.success none) =
        .error normalizedErrorMessage) ∧
    (getOutfitRecommendation parse (.success (some "")) =
        .error normalizedErrorMessage) ∧
    (∀ t, parse t = none →
        getOutfitRecommendation parse (.success (some t)) =
          .error normalizedErrorMessage) := by
  refine ⟨?_, ?_, ?_, ?_, ?_⟩
  · intro svc msg h
    unfold getOutfitRecommendation at h
    cases ha : attemptRecommendation parse svc with
    | ok j => rw [ha] at h; exact absurd h (by simp)
    | error e => rw [ha] at h; simpa using h.symm
  · intro m; rfl
  · rfl
  · rfl
  · intro t hp
    unfold getOutfitRecommendation attemptRecommendation
    by_cases ht : t = "" <;> simp [ht, hp]

/-- Witness for C1 at concrete inputs: the payload from the spec example
that is not valid JSON is mapped to the normalized message. -/
theorem claim_C1_witness :
    getOutfitRecommendation (fun _ => none) (.success (some "\x7bnot json")) =
      .error normalizedErrorMessage :=
  (claim_C1 (fun _ => none)).2.2.2.2 "\x7bnot json" rfl

/-! ## Claims C4 and C5

The client casts the parsed JSON with `as StylistResponse` and performs
no runtime validation, so any successfully parsed payload is returned to
the caller unchanged, whatever its shape or suggestion count. -/

/-- A JSON payload that parses but violates the `StylistResponse` shape:
`primary_outfit` is missing five of its six required fields. -/
def badShapeJson : Json :=
  .obj [("primary_outfit", .obj [("title", .str "Gallery Chic")]),
        ("additional_suggestions", .arr []),
        ("styling_notes", .str "Keep it simple.")]

/-- A parse function under which the payload `"bad-shape-payload"`
deserializes to `badShapeJson` and every other string fails to parse. -/
def parseBadShape : String → Option Json :=
  fun t => if t = "bad-shape-payload" then some badShapeJson else none

/-- Counterexample to C4: a payload that deserializes as JSON but does
not satisfy the `StylistResponse` shape is returned successfully by
`getOutfitRecommendation`, and no error at all is produced. -/
theorem claim_C4_counterexample :
    getOutfitRecommendation parseBadShape (.success (some "bad-shape-payload")) =
      .ok badShapeJson ∧
    isStylistResponseShape badShapeJson = false ∧
    (∀ msg, getOutfitRecommendation parseBadShape
        (.success (some "bad-shape-payload")) ≠ .error msg) := by
  refine ⟨rfl, rfl, ?_⟩
  intro msg h
  rw [show getOutfitRecommendation parseBadShape
        (.success (some "bad-shape-payload")) = .ok badShapeJson from rfl] at h
  exact Except.noConfusion h

/-- C4 as amended: `getOutfitRecommendation` raises the normalized error
exactly when `JSON.parse` fails on the text payload; when the payload
parses, the parsed value is returned as-is with no shape validation, so
a malformed object reaches the caller. -/
theorem claim_C4_amended (parse : String → Option Json) (t : String)
    (ht : t ≠ "") :
    (parse t = none → getOutfitRecommendation parse (.success (some t)) =
        .error normalizedErrorMessage) ∧
    (∀ j, parse t = some j → getOutfitRecommendation parse
        (.success (some t)) = .ok j) := by
  constructor
  · intro hp
    unfold getOutfitRecommendation attemptRecommendation
    simp [ht, hp]
  · intro j hp
    unfold getOutfitRecommendation attemptRecommendation
    simp [ht, hp]

/-- Witness for the amended C4 at the concrete malformed payload. -/
theorem claim_C4_amended_witness :
    getOutfitRecommendation parseBadShape (.success (some "bad-shape-payload")) =
      .ok badShapeJson :=
  (claim_C4_amended parseBadShape "bad-shape-payload" (by decide)).2
    badShapeJson rfl

/-- Every encoded suggestion satisfies the suggestion shape. -/
theorem isSuggestionShape_encode (a : AdditionalSuggestion) :
    isSuggestionShape (encodeSuggestion a) = true := rfl

/-- Every encoded primary outfit satisfies the primary-outfit shape. -/
theorem isPrimaryOutfitShape_encode (o : PrimaryOutfit) :
    isPrimaryOutfitShape (encodePrimaryOutfit o) = true := by
  simp [isPrimaryOutfitShape, encodePrimaryOutfit, hasStringField, findField,
    isJsonString, isJsonStringArray, List.all_map]

/-- Every encoded stylist response satisfies the response shape,
whatever the length of its suggestion list. -/
theorem isStylistResponseShape_encode (r : StylistResponse) :
    isStylistResponseShape (encodeStylistResponse r) = true := by
  simp [isStylistResponseShape, encodeStylistResponse, hasStringField,
    findField, isJsonString, List.all_map, isPrimaryOutfitShape_encode]
  intro a _
  rfl

/-- A schema-conforming response whose suggestion list has length 2 and
whose primary title is empty. -/
def shortResponse : StylistResponse :=
  { primary_outfit :=
      { title := "", top := "Silk blouse", bottom := "Tailored trousers",
        footwear := "Leather loafers", accessories := ["Thin gold watch"],
        reasoning := "Clean minimal lines." },
    additional_suggestions :=
      [{ label := "Casual", outfit_summary := "Denim and a knit tee." },
       { label := "Trendy", outfit_summary := "A statement blazer." }],
    styling_notes := "Keep the palette neutral." }

/-- A parse function under which the payload `"two-suggestion-payload"`
deserializes to the encoding of `shortResponse`. -/
def parseShort : String → Option Json :=
  fun t =>
    if t = "two-suggestion-payload" then some (encodeStylistResponse shortResponse)
    else none

/-- Counterexample to C5: `getOutfitRecommendation` successfully returns
a shape-conforming response whose `additional_suggestions` has length 2
and whose `primary_outfit.title` is empty — neither invariant is
enforced by the client. -/
theorem claim_C5_counterexample :
    getOutfitRecommendation parseShort (.success (some "two-suggestion-payload")) =
      .ok (encodeStylistResponse shortResponse) ∧
    shortResponse.additional_suggestions.length = 2 ∧
    shortResponse.primary_outfit.title = "" ∧
    isStylistResponseShape (encodeStylistResponse shortResponse) = true :=
  ⟨rfl, rfl, rfl, rfl⟩

/-- C5 as amended: the client validates nothing about the decoded
payload — every encoded `StylistResponse`, with any suggestion count and
any title, is returned successfully; length 3 and a non-empty title are
requested only through the prompt and schema sent to the service. -/
theorem claim_C5_amended (parse : String → Option Json) (t : String)
    (r : StylistResponse) (ht : t ≠ "")
    (hp : parse t = some (encodeStylistResponse r)) :
    getOutfitRecommendation parse (.success (some t)) =
      .ok (encodeStylistResponse r) ∧
    isStylistResponseShape (encodeStylistResponse r) = true := by
  constructor
  · unfold getOutfitRecommendation attemptRecommendation
    simp [ht, hp]
  · exact isStylistResponseShape_encode r

/-- Witness for the amended C5 at the two-suggestion payload. -/
theorem claim_C5_amended_witness :
    getOutfitRecommendation parseShort (.success (some "two-suggestion-payload")) =
      .ok (encodeStylistResponse shortResponse) ∧
    isStylistResponseShape (encodeStylistResponse shortResponse) = true :=
  claim_C5_amended parseShort "two-suggestion-payload" shortResponse
    (by decide) rfl

/-! ## The validation engine of src/App.tsx -/

def OCCASION_MIN_LENGTH : Nat := 5

def OCCASION_MAX_LENGTH : Nat := 300

def PREFERENCES_MAX_LENGTH : Nat := 200

/-- The field argument of `validate` in src/App.tsx. -/
inductive FormField where
  | occasion : FormField
  | gender : FormField
  | preferences : FormField

def requiredOccasionMessage : String := "Please describe the occasion."

def tooShortOccasionMessage : String := "Add at least 5 characters."

def tooLongOccasionMessage : String := "Limit to 300 characters."

def descriptiveTextMessage : String := "Please include descriptive text."

def genderRequiredMessage : String := "Please select a style focus."

def tooLongPreferencesMessage : String := "Limit to 200 characters."

def invalidTextMessage : String := "Please include valid text."

/-- The `validate` callback of src/App.tsx: returns the error message
for one field, with the empty string meaning the value is valid. -/
def validate (field : FormField) (value : String) : String :=
  let trimmed := trimString value
  match field with
  | .occasion =>
      if trimmed = "" then requiredOccasionMessage
      else if trimmed.length < OCCASION_MIN_LENGTH then tooShortOccasionMessage
      else if value.length > OCCASION_MAX_LENGTH then tooLongOccasionMessage
      else if !hasAsciiLetter trimmed then descriptiveTextMessage
      else ""
  | .gender =>
      if trimmed = "" then genderRequiredMessage else ""
  | .preferences =>
      if value.length > PREFERENCES_MAX_LENGTH then tooLongPreferencesMessage
      else if value.length > 0 && !hasAsciiAlphanumeric value then invalidTextMessage
      else ""

/-! ## Claim C2 -/

/-- C2: `validate .occasion` evaluates exactly four checks in order —
trimmed value non-empty, trimmed length at least 5, raw length at most
300, trimmed value contains an ASCII letter — returns the message of the
first failing check, and the empty string when all four pass; a
whitespace-only input (one whose trimmed value is empty) gets the
required message, which differs from the too-short message. -/
theorem claim_C2 (v : String) :
    (trimString v = "" → validate .occasion v = requiredOccasionMessage) ∧
    requiredOccasionMessage ≠ tooShortOccasionMessage ∧
    (trimString v ≠ "" → (trimString v).length < 5 →
        validate .occasion v = tooShortOccasionMessage) ∧
    (trimString v ≠ "" → 5 ≤ (trimString v).length → 300 < v.length →
        validate .occasion v = tooLongOccasionMessage) ∧
    (trimString v ≠ "" → 5 ≤ (trimString v).length → v.length ≤ 300 →
        hasAsciiLetter (trimString v) = false →
        validate .occasion v = descriptiveTextMessage) ∧
    (trimString v ≠ "" → 5 ≤ (trimString v).length → v.length ≤ 300 →
        hasAsciiLetter (trimString v) = true →
        validate .occasion v = "") := by
  have hval : validate .occasion v =
      (if trimString v = "" then requiredOccasionMessage
       else if (trimString v).length < 5 then tooShortOccasionMessage
       else if v.length > 300 then tooLongOccasionMessage
       else if !hasAsciiLetter (trimString v) then descriptiveTextMessage
       else "") := rfl
  refine ⟨?_, by decide, ?_, ?_, ?_, ?_⟩
  · intro h1
    rw [hval]
    simp [h1]
  · intro h1 h2
    rw [hval]
    simp [h1, h2]
  · intro h1 h2 h3
    rw [hval]
    simp [h1, Nat.not_lt.mpr h2, h3]
  · intro h1 h2 h3 h4
    rw [hval]
    simp [h1, Nat.not_lt.mpr h2, Nat.not_lt.mpr h3, h4]
  · intro h1 h2 h3 h4
    rw [hval]
    simp [h1, Nat.not_lt.mpr h2, Nat.not_lt.mpr h3, h4]

set_option maxRecDepth 8000 in
/-- Witness for C2: one concrete input per branch, including the
whitespace-only input from the spec. -/
theorem claim_C2_witness :
    validate .occasion "   " = requiredOccasionMessage ∧
    validate .occasion "abc" = tooShortOccasionMessage ∧
    validate .occasion (String.mk (List.replicate 301 'a')) = tooLongOccasionMessage ∧
    validate .occasion "12345" = descriptiveTextMessage ∧
    validate .occasion "Gallery Opening" = "" :=
  ⟨(claim_C2 "   ").1 (by decide),
   (claim_C2 "abc").2.2.1 (by decide) (by decide),
   (claim_C2 (String.mk (List.replicate 301 'a'))).2.2.2.1
     (by decide) (by decide) (by decide),
   (claim_C2 "12345").2.2.2.2.1 (by decide) (by decide) (by decide) (by decide),
   (claim_C2 "Gallery Opening").2.2.2.2.2
     (by decide) (by decide) (by decide) (by decide)⟩

/-! ## Claim C8

The too-long check runs before the invalid-text check, so a string
longer than 200 characters with no alphanumeric character gets the
too-long message, not the invalid-text message. -/

/-- A string of 201 exclamation marks: non-empty, no alphanumeric
character, raw length over 200. -/
def bangs201 : String := String.mk (List.replicate 201 '!')

set_option maxRecDepth 8000 in
/-- Counterexample to C8: `bangs201` is non-empty and contains no
alphanumeric ASCII character, yet `validate .preferences` returns the
too-long message, not the invalid-text message. -/
theorem claim_C8_counterexample :
    bangs201 ≠ "" ∧
    hasAsciiAlphanumeric bangs201 = false ∧
    validate .preferences bangs201 = tooLongPreferencesMessage ∧
    tooLongPreferencesMessage ≠ invalidTextMessage :=
  ⟨by decide, by decide, by decide, by decide⟩

/-- C8 as amended: `validate .preferences` returns the empty message on
the empty value; the too-long message whenever the raw length exceeds
200; and the invalid-text message when the value is non-empty, of raw
length at most 200, and contains no alphanumeric ASCII character. -/
theorem claim_C8_amended (v : String) :
    (v = "" → validate .preferences v = "") ∧
    (v.length > 200 →
        validate .preferences v = tooLongPreferencesMessage ∧
        tooLongPreferencesMessage ≠ "") ∧
    (0 < v.length → v.length ≤ 200 → hasAsciiAlphanumeric v = false →
        validate .preferences v = invalidTextMessage ∧
        invalidTextMessage ≠ "") := by
  have hval : validate .preferences v =
      (if v.length > 200 then tooLongPreferencesMessage
       else if v.length > 0 && !hasAsciiAlphanumeric v then invalidTextMessage
       else "") := rfl
  refine ⟨?_, ?_, ?_⟩
  · intro h1
    subst h1
    rfl
  · intro h1
    refine ⟨?_, by decide⟩
    rw [hval]
    simp [h1]
  · intro h1 h2 h3
    refine ⟨?_, by decide⟩
    rw [hval]
    simp [h1, Nat.not_lt.mpr h2, h3]

set_option maxRecDepth 8000 in
/-- Witness for the amended C8 at the empty, too-long and
no-alphanumeric inputs. -/
theorem claim_C8_amended_witness :
    validate .preferences "" = "" ∧
    validate .preferences bangs201 = tooLongPreferencesMessage ∧
    validate .preferences "!!!" = invalidTextMessage :=
  ⟨(claim_C8_amended "").1 rfl,
   ((claim_C8_amended bangs201).2.1 (by decide)).1,
   ((claim_C8_amended "!!!").2.2 (by decide) (by decide) (by decide)).1⟩

/-! ## Submission gating in src/App.tsx -/

/-- The three form values of the App component at submit time. -/
structure FormState where
  occasion : String
  gender : String
  preferences : String

/-- What a submission attempt does: return early, or invoke
`getOutfitRecommendation` with the three form values. -/
inductive SubmitOutcome where
  | blocked : SubmitOutcome
  | callService (occasion gender preferences : String) : SubmitOutcome
deriving DecidableEq

/-- The guard logic of `handleSubmit` in src/App.tsx: validate all three
fields, return early if any message is non-empty (JavaScript truthiness
of the message strings), return early if the trimmed occasion or the raw
gender is empty, and only then call the recommendation client. -/
def handleSubmit (s : FormState) : SubmitOutcome :=
  let occasionError := validate .occasion s.occasion
  let genderError := validate .gender s.gender
  let preferencesError := validate .preferences s.preferences
  if occasionError ≠ "" ∨ genderError ≠ "" ∨ preferencesError ≠ "" then .blocked
  else if trimString s.occasion = "" ∨ s.gender = "" then .blocked
  else .callService s.occasion s.gender s.preferences

/-! ## Claim C9 -/

/-- C9: for every form state whose gender value is empty, a submission
attempt never invokes the recommendation client — `handleSubmit` blocks,
and the call branch is unreachable. -/
theorem claim_C9 (s : FormState) (h : s.gender = "") :
    handleSubmit s = .blocked ∧
    ∀ o g p, handleSubmit s ≠ .callService o g p := by
  have hg : validate .gender s.gender ≠ "" := by
    rw [h]
    decide
  have hb : handleSubmit s = .blocked := by
    unfold handleSubmit
    rw [if_pos (Or.inr (Or.inl hg))]
  refine ⟨hb, fun o g p hc => ?_⟩
  rw [hb] at hc
  exact SubmitOutcome.noConfusion hc

/-- Witness for C9: a filled-in occasion with an empty gender still
blocks the submission. -/
theorem claim_C9_witness :
    handleSubmit ⟨"Tech Job Interview", "", ""⟩ = SubmitOutcome.blocked :=
  (claim_C9 ⟨"Tech Job Interview", "", ""⟩ rfl).1

/-! ## The result and error state of the App component -/

/-- The pieces of App state that C10 speaks about: the rendered result,
the user-facing error message, and the loading flag. -/
structure AppState where
  result : Option Json
  error : Option String
  loading : Bool

/-- The initial App state: no result, no error, not loading. -/
def initialAppState : AppState :=
  { result := none, error := none, loading := false }

/-- One UI event of the App component, as it updates the three state
pieces in src/App.tsx:
  a blocked submission changes nothing;
  a passing submission sets loading and clears both error and result
  before the network call (the submit button is disabled while loading);
  the call resolving stores the result and clears loading;
  the call rejecting stores the error message and clears loading;
  handleReset clears result and error (and leaves loading untouched);
  the error-card button sets the error to null. -/
inductive AppStep : AppState → AppState → Prop where
  | submitBlocked (s : AppState) : AppStep s s
  | submitStart (s : AppState) (h : s.loading = false) :
      AppStep s { result := none, error := none, loading := true }
  | finishSuccess (s : AppState) (j : Json) (h : s.loading = true) :
      AppStep s { s with result := some j, loading := false }
  | finishFailure (s : AppState) (msg : String) (h : s.loading = true) :
      AppStep s { s with error := some msg, loading := false }
  | reset (s : AppState) :
      AppStep s { s with result := none, error := none }
  | dismissError (s : AppState) :
      AppStep s { s with error := none }

/-- The App states reachable from the initial state by UI events. -/
inductive ReachableApp : AppState → Prop where
  | init : ReachableApp initialAppState
  | step {s t : AppState} : ReachableApp s → AppStep s t → ReachableApp t

/-- Auxiliary invariant: while loading, both result and error are clear,
and in every reachable state at most one of them is present. -/
theorem reachableApp_invariant {s : AppState} (h : ReachableApp s) :
    (s.loading = true → s.result = none ∧ s.error = none) ∧
    (s.result = none ∨ s.error = none) := by
  induction h with
  | init => exact ⟨fun _ => ⟨rfl, rfl⟩, Or.inl rfl⟩
  | step hr hs ih =>
    cases hs with
    | submitBlocked => exact ih
    | submitStart h => exact ⟨fun _ => ⟨rfl, rfl⟩, Or.inl rfl⟩
    | finishSuccess j h =>
        have := (ih.1 h).2
        exact ⟨fun hl => absurd hl (by simp), Or.inr this⟩
    | finishFailure msg h =>
        have := (ih.1 h).1
        exact ⟨fun hl => absurd hl (by simp), Or.inl this⟩
    | reset => exact ⟨fun _ => ⟨rfl, rfl⟩, Or.inl rfl⟩
    | dismissError =>
        refine ⟨fun hl => ⟨(ih.1 hl).1, rfl⟩, Or.inr rfl⟩

/-! ## Claim C10 -/

/-- C10: in every reachable App state, the user-facing error message and
the recommendation result are never both present — a submission clears
both before the network call, its completion sets exactly one of them,
and reset clears both. -/
theorem claim_C10 (s : AppState) (h : ReachableApp s) :
    s.result = none ∨ s.error = none :=
  (reachableApp_invariant h).2

/-- Witness for C10: the state reached by a successful submission
carries a result and no error. -/
theorem claim_C10_witness :
    ({ result := some (Json.str "look"), error := none, loading := false } :
        AppState).result = none ∨
    ({ result := some (Json.str "look"), error := none, loading := false } :
        AppState).error = none :=
  claim_C10 _
    (ReachableApp.step
      (ReachableApp.step ReachableApp.init
        (AppStep.submitStart initialAppState rfl))
      (AppStep.finishSuccess
        { result := none, error := none, loading := true }
        (Json.str "look") rfl))

/-! ## The saved-outfit store of the OutfitDisplay component

The store lives at the fixed key `fashion_mate_saved_outfits` in local
storage.  The value at that key is modelled algebraically: `absent` for
a missing key, `corrupted raw` for a stored string that `JSON.parse`
rejects, and `valid l` for the `JSON.stringify` serialization of the
outfit list `l` (which `JSON.parse` maps back to `l`). -/

/-- The content of local storage at the saved-outfits key. -/
inductive StoredValue where
  | absent : StoredValue
  | corrupted (raw : String) : StoredValue
  | valid (outfits : List PrimaryOutfit) : StoredValue
deriving DecidableEq

/-- The outfit list held by a valid stored value, if any. -/
def storedOutfits : StoredValue → Option (List PrimaryOutfit)
  | .valid l => some l
  | _ => none

/-- The read stage shared by both store operations:
`savedData ? JSON.parse(savedData) : []`, with `none` when `JSON.parse`
throws. -/
def readStoredOutfits : StoredValue → Option (List PrimaryOutfit)
  | .absent => some []
  | .corrupted _ => none
  | .valid l => some l

/-- The saved-check effect of the OutfitDisplay component: when the key
is present and parses, recompute the flag as an existence check on the
title; when the key is absent the guarded block is skipped, and when the
parse throws the handler swallows the exception — in both cases the flag
keeps its previous value (`false` at mount). -/
def checkSaved (stored : StoredValue) (title : String) (prev : Bool) : Bool :=
  match stored with
  | .absent => prev
  | .corrupted _ => prev
  | .valid outfits => outfits.any (fun o => o.title == title)

/-- The `toggleSave` handler: load the collection (missing key reads as
the empty list); if the outfit is currently marked saved, remove every
record with its title by filtering, otherwise append the outfit; write
the collection back and flip the flag.  A parse exception is caught:
nothing is written and the flag is not flipped. -/
def toggleSave (stored : StoredValue) (saved : Bool) (outfit : PrimaryOutfit) :
    StoredValue × Bool :=
  match readStoredOutfits stored with
  | none => (stored, saved)
  | some l =>
      let outfits :=
        if saved then l.filter (fun o => !(o.title == outfit.title))
        else l ++ [outfit]
      (.valid outfits, !saved)

/-- A concrete outfit used by the store witnesses. -/
def sampleOutfit : PrimaryOutfit :=
  { title := "Gallery Chic", top := "Cream silk camisole",
    bottom := "Wide-leg trousers", footwear := "Pointed flats",
    accessories := ["Sculptural earrings"], reasoning := "Effortless polish." }

/-! ## Claim C3 -/

/-- Counterexample to C3: on the corrupted stored value the saved check
does return false without raising, but the subsequent `toggleSave` is a
no-op — the corrupted value stays in storage, the flag is not flipped,
and no valid single-element collection is produced. -/
theorem claim_C3_counterexample :
    checkSaved (.corrupted "\x7bnot json") "Gallery Chic" false = false ∧
    toggleSave (.corrupted "\x7bnot json") false sampleOutfit =
      (.corrupted "\x7bnot json", false) ∧
    storedOutfits
      (toggleSave (.corrupted "\x7bnot json") false sampleOutfit).1 = none :=
  ⟨rfl, rfl, rfl⟩

/-- C3 as amended: with a corrupted value at the storage key the saved
check returns false without raising, and a subsequent `toggleSave` is a
caught, logged no-op that leaves the corrupted value in place; only once
the key is clear does `toggleSave` produce the single-element valid
collection, on which the saved check returns true. -/
theorem claim_C3_amended (raw : String) (title : String) (o : PrimaryOutfit) :
    checkSaved (.corrupted raw) title false = false ∧
    toggleSave (.corrupted raw) false o = (.corrupted raw, false) ∧
    toggleSave .absent false o = (.valid [o], true) ∧
    checkSaved (.valid [o]) o.title false = true := by
  refine ⟨rfl, rfl, rfl, ?_⟩
  simp [checkSaved]

/-! ## Claim C6 -/

/-- C6: starting from a collection with no record titled as the outfit,
toggling save marks it saved and a fresh check on the written collection
finds it; toggling again returns the flag to false and leaves a
persisted collection containing no record with that title — and because
removal filters the whole collection, toggling off from any collection
removes every record with that title, duplicates included. -/
theorem claim_C6 (l : List PrimaryOutfit) (o : PrimaryOutfit)
    (h : ∀ x ∈ l, x.title ≠ o.title) :
    (toggleSave (.valid l) false o).2 = true ∧
    checkSaved (toggleSave (.valid l) false o).1 o.title false = true ∧
    (toggleSave (toggleSave (.valid l) false o).1 true o).2 = false ∧
    (∃ l₂, storedOutfits
        (toggleSave (toggleSave (.valid l) false o).1 true o).1 = some l₂ ∧
        ∀ x ∈ l₂, x.title ≠ o.title) ∧
    (∀ s : List PrimaryOutfit, ∃ t,
        storedOutfits (toggleSave (.valid s) true o).1 = some t ∧
        ∀ x ∈ t, x.title ≠ o.title) := by
  refine ⟨rfl, ?_, rfl, ?_, ?_⟩
  · simp [toggleSave, readStoredOutfits, checkSaved]
  · refine ⟨(l ++ [o]).filter (fun x => !(x.title == o.title)), rfl, ?_⟩
    intro x hx
    have := List.of_mem_filter hx
    simpa using this
  · intro s
    refine ⟨s.filter (fun x => !(x.title == o.title)), rfl, ?_⟩
    intro x hx
    have := List.of_mem_filter hx
    simpa using this

/-- Witness for C6: the round trip from the empty collection with the
outfit titled Gallery Chic. -/
theorem claim_C6_witness :
    (toggleSave (.valid []) false sampleOutfit).2 = true ∧
    checkSaved (toggleSave (.valid []) false sampleOutfit).1
      sampleOutfit.title false = true ∧
    (toggleSave (toggleSave (.valid []) false sampleOutfit).1
      true sampleOutfit).2 = false ∧
    (∃ l₂, storedOutfits
        (toggleSave (toggleSave (.valid []) false sampleOutfit).1
          true sampleOutfit).1 = some l₂ ∧
        ∀ x ∈ l₂, x.title ≠ sampleOutfit.title) ∧
    (∀ s : List PrimaryOutfit, ∃ t,
        storedOutfits (toggleSave (.valid s) true sampleOutfit).1 = some t ∧
        ∀ x ∈ t, x.title ≠ sampleOutfit.title) :=
  claim_C6 [] sampleOutfit (by simp)

/-! ## Claim C7 -/

/-- C7: `toggleSave` preserves the invariant that the persisted
collection has pairwise-distinct titles.  The hypothesis `hsync` encodes
reachability: the saved flag agrees with membership of the outfit title
in the collection, which the saved-check effect recomputes whenever the
displayed outfit changes and which `toggleSave` itself maintains. -/
theorem claim_C7 (l : List PrimaryOutfit) (o : PrimaryOutfit) (saved : Bool)
    (hsync : saved = l.any (fun x => x.title == o.title))
    (hdist : l.Pairwise (fun a b => a.title ≠ b.title)) :
    ∃ m, storedOutfits (toggleSave (.valid l) saved o).1 = some m ∧
      m.Pairwise (fun a b => a.title ≠ b.title) := by
  cases saved with
  | true =>
      refine ⟨l.filter (fun x => !(x.title == o.title)), rfl, ?_⟩
      exact hdist.filter _
  | false =>
      refine ⟨l ++ [o], rfl, ?_⟩
      have habs : ∀ x ∈ l, x.title ≠ o.title := by
        intro x hx
        have hany := hsync.symm
        rw [List.any_eq_false] at hany
        simpa using hany x hx
      rw [List.pairwise_append]
      refine ⟨hdist, by simp, ?_⟩
      intro a ha b hb
      rw [List.mem_singleton] at hb
      subst hb
      exact habs a ha

/-- Witness for C7: removing the only record keeps titles distinct. -/
theorem claim_C7_witness :
    ∃ m, storedOutfits
        (toggleSave (.valid [sampleOutfit]) true sampleOutfit).1 = some m ∧
      m.Pairwise (fun a b => a.title ≠ b.title) :=
  claim_C7 [sampleOutfit] sampleOutfit true (by simp) (by simp)
